import Mathlib

/-!
Verification development for the dv-flow-libfusesoc repository.

The repository's own logic — file-set conversion (`fusesoc_fileset.py`),
EDAM descriptor building (`edam_builder.py`) and the task wrappers
(`fusesoc_core_resolve.py`, `edalize_sim.py`) — is shallowly embedded here.

Modelling conventions:
* Python dicts with string keys become insertion-ordered association lists
  (`alistGet` / `alistSet` mirror `d.get(k)` / `d[k] = v`).
* The filesystem is an abstract existence predicate `String → Bool`;
  `Path.resolve()` normalisation (symlinks, `..`) is abstracted to the
  identity, so paths are treated as already-canonical strings.
* Calls into the external FuseSoC / Edalize libraries are modelled by their
  outcomes: an `Except String α` value, where `.error e` stands for the call
  raising an exception whose `str()` is `e`.
-/

/-! ## Generic helpers: Python dicts and paths -/

/-- Lookup in an insertion-ordered association list; mirrors Python
`d.get(key)`. -/
def alistGet {α : Type} : List (String × α) → String → Option α
  | [], _ => none
  | (k, v) :: rest, key => if k = key then some v else alistGet rest key

/-- Update-or-append in an insertion-ordered association list; mirrors Python
`d[key] = val` (an existing key keeps its position, a new key is appended). -/
def alistSet {α : Type} : List (String × α) → String → α → List (String × α)
  | [], key, val => [(key, val)]
  | (k, v) :: rest, key, val =>
    if k = key then (k, val) :: rest else (k, v) :: alistSet rest key val

/-- POSIX `os.path.isabs` (`p.startswith('/')`), phrased over the character
list so that it evaluates by kernel reduction. -/
def isAbsPath (p : String) : Bool := p.data.head? == some '/'

/-- `pathlib` join (`root / rel`): an absolute right operand replaces the
root entirely. -/
def joinPath (root rel : String) : String :=
  if isAbsPath rel then rel else root ++ "/" ++ rel

/-- Split a character list on slashes (the char-level counterpart of
`p.splitOn "/"`, kept primitive so it evaluates by kernel reduction). -/
def splitOnSlash : List Char → List (List Char)
  | [] => [[]]
  | c :: rest =>
    let r := splitOnSlash rest
    if c = '/' then [] :: r
    else
      match r with
      | [] => [[c]]
      | g :: gs => (c :: g) :: gs

/-- `pathlib.PurePath.parent` on an already-normalised path string. -/
def pathParent (p : String) : String :=
  let parts := splitOnSlash p.data
  let most := parts.dropLast
  if most.isEmpty then "."
  else if most = [[]] then "/"
  else String.mk (List.intercalate ['/'] most)

/-! ## FilesetConverter (`fusesoc_fileset.py`) -/

/-- `FilesetConverter.FILE_TYPE_MAP`: FuseSoC file types to common
categories. -/
def FILE_TYPE_MAP : List (String × String) :=
  [("verilogSource", "verilog"),
   ("systemVerilogSource", "systemverilog"),
   ("vhdlSource", "vhdl"),
   ("vhdlSource-2008", "vhdl"),
   ("tclSource", "tcl"),
   ("user", "user"),
   ("xdc", "constraint"),
   ("SDC", "constraint"),
   ("UCF", "constraint"),
   ("PCF", "constraint"),
   ("LPF", "constraint")]

/-- `FILE_TYPE_MAP.get(file_type, file_type)`: unmapped tags pass through. -/
def mapCoreFileType (t : String) : String := (alistGet FILE_TYPE_MAP t).getD t

/-- `FilesetConverter._resolve_file_path`.  `fs` is the filesystem existence
predicate; `core_root` / `files_root` are the converter's two roots. -/
def resolve_file_path (fs : String → Bool) (core_root files_root : String)
    (filename : String) : String :=
  if isAbsPath filename then filename
  else
    let core_path := joinPath core_root filename
    if fs core_path then core_path
    else if files_root ≠ core_root then
      let files_path := joinPath files_root filename
      if fs files_path then files_path
      else core_path
    else core_path

/-- A FuseSoC file record (`core.get_files()` entry): every field an
`Option`, mirroring dict-key presence. -/
structure FuseSocFile where
  name : Option String
  file_type : Option String
  is_include_file : Option Bool
  include_path : Option String
  logical_name : Option String
  copyto : Option String
  tags : Option (List String)
  deriving DecidableEq

/-- A converted DV-Flow file record (`FilesetConverter._convert_file`
output). -/
structure DvFile where
  path : String
  type : String
  name : String
  is_include : Option Bool
  include_path : Option String
  library : Option String
  copyto : Option String
  tags : Option (List String)
  deriving DecidableEq

/-- `FilesetConverter._convert_file`: `None` when the record has no usable
name (Python's `if not filename`). -/
def convert_file (fs : String → Bool) (cr fr : String) (f : FuseSocFile) :
    Option DvFile :=
  match f.name with
  | none => none
  | some fn =>
    if fn = "" then none
    else some
      { path := resolve_file_path fs cr fr fn
        type := mapCoreFileType (f.file_type.getD "user")
        name := fn
        is_include := f.is_include_file
        include_path := f.include_path.map (resolve_file_path fs cr fr)
        library := f.logical_name
        copyto := f.copyto
        tags := f.tags }

/-- `FilesetConverter.convert_files`: per-record conversion, dropped records
skipped. -/
def convert_files (fs : String → Bool) (cr fr : String)
    (files : List FuseSocFile) : List DvFile :=
  files.filterMap (convert_file fs cr fr)

/-- `FilesetConverter.extract_include_dirs`: set-collect include paths and
parents of include files, returned sorted (`sorted(list(include_dirs))`). -/
def extract_include_dirs (fs : String → Bool) (cr fr : String)
    (files : List FuseSocFile) : List String :=
  let dirs := files.flatMap (fun f =>
    (match f.include_path with
     | some ip => [resolve_file_path fs cr fr ip]
     | none => []) ++
    (if f.is_include_file.getD false then
       match f.name with
       | some fn =>
         if fn = "" then [] else [pathParent (resolve_file_path fs cr fr fn)]
       | none => []
     else []))
  (dirs.dedup).mergeSort (fun a b => a ≤ b)

/-- Whether a FuseSoC record carries a usable (non-empty) name; these are
the records `convert_files` keeps. -/
def hasName (f : FuseSocFile) : Bool :=
  match f.name with
  | some s => if s = "" then false else true
  | none => false

/-- The per-record conversion as the (amended) claim words it: the type tag
is looked up in the mapping table (unmapped tags pass through), the name is
kept, the path is resolved against the two roots, `is_include_file`,
`logical_name`, `copyto` and `tags` are carried over unchanged under their
renamed keys exactly when present, and `include_path` is present exactly
when present in the input but its value is resolved against the two roots
rather than copied verbatim. -/
def specConvertedRecord (fs : String → Bool) (cr fr : String)
    (f : FuseSocFile) : DvFile :=
  { path := resolve_file_path fs cr fr (f.name.getD "")
    type := mapCoreFileType (f.file_type.getD "user")
    name := f.name.getD ""
    is_include := f.is_include_file
    include_path := f.include_path.map (resolve_file_path fs cr fr)
    library := f.logical_name
    copyto := f.copyto
    tags := f.tags }

/-! ## EdamBuilder (`edam_builder.py`) -/

/-- An untyped Python value as it appears in parameter / plusarg maps. -/
inductive PyValue where
  | pyBool (b : Bool)
  | pyInt (n : Int)
  | pyFloat (f : Float)
  | pyStr (s : String)
  | pyNone

/-- `isinstance(value, bool)`. -/
def isinstance_bool : PyValue → Bool
  | .pyBool _ => true
  | _ => false

/-- `isinstance(value, int)`: Python's `bool` is a subclass of `int`, so
booleans are also instances of `int`. -/
def isinstance_int : PyValue → Bool
  | .pyBool _ => true
  | .pyInt _ => true
  | _ => false

/-- `isinstance(value, float)`. -/
def isinstance_float : PyValue → Bool
  | .pyFloat _ => true
  | _ => false

/-- An EDAM parameter record (`datatype` / `default` / `paramtype` dict). -/
structure EdamParam where
  datatype : String
  default : PyValue
  paramtype : String

/-- A value supplied to `add_parameters`: either already an EDAM-format
record (a dict) or a raw value whose datatype must be inferred. -/
inductive ParamValue where
  | record (p : EdamParam)
  | raw (v : PyValue)

/-- The `toplevel` field: Python code may hold a string or a list there. -/
inductive Toplevel where
  | str (s : String)
  | list (l : List String)
  deriving DecidableEq

/-- A tool-option bag: option name to a list of string tokens. -/
abbrev OptBag := List (String × List String)

/-- `tool_options`: tool name to its option bag. -/
abbrev ToolOptions := List (String × OptBag)

/-- An EDAM file entry built by `EdamBuilder.add_files`. -/
structure EdamFile where
  name : String
  file_type : String
  is_include_file : Option Bool
  include_path : Option String
  logical_name : Option String

/-- The EDAM descriptor accumulated by `EdamBuilder` (`self.edam`). -/
structure Edam where
  name : String
  files : List EdamFile
  parameters : List (String × EdamParam)
  tool_options : ToolOptions
  flow_options : List (String × String)
  toplevel : Toplevel

namespace EdamBuilder

/-- `EdamBuilder.__init__`: the initial descriptor. -/
def init (name : String) : Edam :=
  { name := name, files := [], parameters := [], tool_options := [],
    flow_options := [], toplevel := .list [] }

/-- The `type_map` dict inside `EdamBuilder._map_file_type`. -/
def EDAM_TYPE_MAP : List (String × String) :=
  [("verilog", "verilogSource"),
   ("systemverilog", "systemVerilogSource"),
   ("vhdl", "vhdlSource"),
   ("vhdl-2008", "vhdlSource-2008"),
   ("constraint", "user"),
   ("xdc", "xdc"),
   ("sdc", "SDC"),
   ("ucf", "UCF"),
   ("tcl", "tclSource"),
   ("user", "user")]

/-- `EdamBuilder._map_file_type`: unmapped DV-Flow types fall back to
`user`. -/
def map_file_type (t : String) : String := (alistGet EDAM_TYPE_MAP t).getD "user"

/-- `EdamBuilder._infer_datatype`: the `isinstance` cascade. -/
def infer_datatype (v : PyValue) : String :=
  if isinstance_bool v then "bool"
  else if isinstance_int v then "int"
  else if isinstance_float v then "real"
  else "str"

/-- Python truthiness of an optional string (`if file_info.get(key):`). -/
def truthyStr : Option String → Option String
  | some s => if s = "" then none else some s
  | none => none

/-- `EdamBuilder.add_files`: converted DV-Flow records to EDAM file
entries.  The source reads `file_info.get('path', file_info.get('name'))`;
a `DvFile` always carries `path`, so that lookup yields `path`.  The
optional keys are only set when the corresponding input value is truthy. -/
def add_files (e : Edam) (files : List DvFile) : Edam :=
  { e with files := e.files ++ files.map (fun f =>
      { name := f.path
        file_type := map_file_type f.type
        is_include_file := if f.is_include = some true then some true else none
        include_path := truthyStr f.include_path
        logical_name := truthyStr f.library }) }

/-- `EdamBuilder.set_toplevel`: Edalize expects a string, not a list. -/
def set_toplevel (e : Edam) (t : Toplevel) : Edam :=
  match t with
  | .list l => { e with toplevel := .str (match l with | [] => "" | x :: _ => x) }
  | .str s => { e with toplevel := .str s }

/-- `EdamBuilder.add_parameters`: dict values are stored as given, raw
values get an inferred datatype and the `vlogparam` kind. -/
def add_parameters (e : Edam) (ps : List (String × ParamValue)) : Edam :=
  { e with parameters := (ps.foldl (fun acc nv =>
      match nv.2 with
      | .record p => alistSet acc nv.1 p
      | .raw v => alistSet acc nv.1 ⟨infer_datatype v, v, "vlogparam"⟩)
      e.parameters) }

/-- `EdamBuilder.add_plusargs`: every value gets an inferred datatype and
the `plusarg` kind. -/
def add_plusargs (e : Edam) (ps : List (String × PyValue)) : Edam :=
  { e with parameters := (ps.foldl (fun acc nv =>
      alistSet acc nv.1 ⟨infer_datatype nv.2, nv.2, "plusarg"⟩)
      e.parameters) }

/-- `EdamBuilder.set_tool_options`: merge options into the tool's bag. -/
def set_tool_options (e : Edam) (tool : String) (options : OptBag) : Edam :=
  let bag := (alistGet e.tool_options tool).getD []
  let bag2 := options.foldl (fun acc kv => alistSet acc kv.1 kv.2) bag
  { e with tool_options := alistSet e.tool_options tool bag2 }

/-- `EdamBuilder.set_flow_options`: merge into the flow-option dict. -/
def set_flow_options (e : Edam) (options : List (String × String)) : Edam :=
  { e with flow_options := (options.foldl (fun acc kv => alistSet acc kv.1 kv.2)
      e.flow_options) }

/-- `EdamBuilder.add_include_dirs`: for `icarus` each directory becomes the
flag pair `-I`, dir in `iverilog_options`; for `verilator` the single token
`-I dir` (no space) in `verilator_options`; both bags are created when
absent and appended to when present. -/
def add_include_dirs (e : Edam) (dirs : List String) : Edam :=
  let icarusBag := (alistGet e.tool_options "icarus").getD []
  let icarusCur := (alistGet icarusBag "iverilog_options").getD []
  let icarusBag2 := alistSet icarusBag "iverilog_options"
      (icarusCur ++ dirs.flatMap (fun d => ["-I", d]))
  let to1 := alistSet e.tool_options "icarus" icarusBag2
  let verBag := (alistGet to1 "verilator").getD []
  let verCur := (alistGet verBag "verilator_options").getD []
  let verBag2 := alistSet verBag "verilator_options"
      (verCur ++ dirs.map (fun d => "-I" ++ d))
  { e with tool_options := alistSet to1 "verilator" verBag2 }

/-- `EdamBuilder.build`: validates that the design name is non-empty
(`if not self.edam.get('name'): raise ValueError(...)`). -/
def build (e : Edam) : Except String Edam :=
  if e.name = "" then .error "EDAM 'name' is required" else .ok e

end EdamBuilder

/-! ## Task wrappers (`fusesoc_core_resolve.py`, `edalize_sim.py`) -/

/-- Marker severity (`dv_flow.mgr.task_data.SeverityE`). -/
inductive SeverityE where
  | Info
  | Warning
  | Error
  deriving DecidableEq

/-- A severity-tagged message (`TaskMarker`). -/
structure TaskMarker where
  severity : SeverityE
  msg : String
  deriving DecidableEq

/-- `TaskDataResult`, polymorphic in the output payload type `α` and the
memento type `μ`. -/
structure TaskDataResult (α μ : Type) where
  changed : Bool
  output : List α
  memento : Option μ
  markers : List TaskMarker
  status : Nat

/-- `CoreResolveParams`. -/
structure CoreResolveParams where
  core : String
  target : Option String
  tool : Option String
  libraries : List (String × String)
  workspace : Option String

/-- `CoreResolveOutput`. -/
structure CoreResolveOutput where
  core_name : String
  core_root : String
  files_root : String
  files : List DvFile
  dependencies : List String
  parameters : List (String × PyValue)
  include_dirs : List String

/-- `CoreResolveMemento` (`last_resolution` is the `time.time()` stamp). -/
structure CoreResolveMemento where
  core : String
  target : Option String
  tool : Option String
  core_name : String
  last_resolution : Nat

/-- The dict returned by `FuseSoCManager.get_core_files`. -/
structure CoreFiles where
  name : String
  core_root : String
  files_root : String
  files : List FuseSocFile
  parameters : List (String × PyValue)

/-- Outcomes of the external calls inside `CoreResolve`'s `try` block, in
program order: workspace `mkdir` plus library registration,
`manager.resolve_core` (we keep the resolved core's name),
`manager.get_core_files`, and `manager.get_dependencies`.  `fsExists` is
the filesystem seen by the file-set converter, `now` the `time.time()`
stamp used in the memento. -/
structure CoreResolveDeps where
  setupWorkspace : Except String Unit
  resolveCore : Except String String
  getCoreFiles : Except String CoreFiles
  getDependencies : Except String (List String)
  fsExists : String → Bool
  now : Nat

/-- The `try` block of `CoreResolve`: an error carries the markers already
appended before the exception was raised, since the `except` branch reuses
the accumulated marker list. -/
def coreResolveBody (p : CoreResolveParams) (d : CoreResolveDeps) :
    Except (List TaskMarker × String)
      (TaskDataResult CoreResolveOutput CoreResolveMemento) :=
  match d.setupWorkspace with
  | .error e => .error ([], e)
  | .ok _ =>
    match d.resolveCore with
    | .error e => .error ([], e)
    | .ok coreName =>
      let m1 : TaskMarker := ⟨.Info, "Resolved core: " ++ coreName⟩
      match d.getCoreFiles with
      | .error e => .error ([m1], e)
      | .ok cf =>
        let conv := convert_files d.fsExists cf.core_root cf.files_root cf.files
        let incs := extract_include_dirs d.fsExists cf.core_root cf.files_root
          cf.files
        let m2 : TaskMarker :=
          ⟨.Info, "Extracted " ++ toString conv.length ++ " files from core"⟩
        match d.getDependencies with
        | .error e => .error ([m1, m2], e)
        | .ok deps =>
          .ok { changed := true
                output := [⟨cf.name, cf.core_root, cf.files_root, conv, deps,
                            cf.parameters, incs⟩]
                memento := some ⟨p.core, p.target, p.tool, cf.name, d.now⟩
                markers := [m1, m2]
                status := 0 }

/-- The `CoreResolve` task wrapper: catch-all `except` producing status 1,
empty output and an error marker built from `str(e)`. -/
def CoreResolve (p : CoreResolveParams) (d : CoreResolveDeps) :
    TaskDataResult CoreResolveOutput CoreResolveMemento :=
  match coreResolveBody p d with
  | .ok r => r
  | .error (ms, e) =>
    { changed := false, output := [], memento := none,
      markers := ms ++ [⟨.Error, "Core resolution failed: " ++ e⟩],
      status := 1 }

/-- `SimConfigureParams`. -/
structure SimConfigureParams where
  core_name : String
  files : List DvFile
  include_dirs : List String
  toplevel : String
  tool : String
  parameters : List (String × ParamValue)
  plusargs : List (String × PyValue)
  tool_options : OptBag

/-- `SimConfigureOutput`. -/
structure SimConfigureOutput where
  work_root : String
  tool : String
  configured : Bool

/-- Outcomes of the Edalize calls in `SimConfigure`'s `try` block:
`create_sim_backend` (directory creation may raise) and
`backend.configure()`. -/
structure SimConfigureDeps where
  createBackend : Except String Unit
  configure : Except String Bool

/-- The `EdamBuilder` call chain of `SimConfigure` (each optional part is
guarded by Python truthiness of the corresponding parameter). -/
def simConfigureEdam (p : SimConfigureParams) : Edam :=
  let b := EdamBuilder.init p.core_name
  let b := EdamBuilder.add_files b p.files
  let b := EdamBuilder.set_toplevel b (Toplevel.str p.toplevel)
  let b := EdamBuilder.set_flow_options b [("tool", p.tool)]
  let b := if p.include_dirs.isEmpty then b
    else EdamBuilder.add_include_dirs b p.include_dirs
  let b := if p.parameters.isEmpty then b
    else EdamBuilder.add_parameters b p.parameters
  let b := if p.plusargs.isEmpty then b
    else EdamBuilder.add_plusargs b p.plusargs
  if p.tool_options.isEmpty then b
  else EdamBuilder.set_tool_options b p.tool p.tool_options

/-- The `try` block of `SimConfigure`: build the EDAM (which raises on an
empty design name), create the backend, configure. -/
def simConfigureBody (rundir : String) (p : SimConfigureParams)
    (d : SimConfigureDeps) :
    Except String (TaskDataResult SimConfigureOutput Unit) :=
  match EdamBuilder.build (simConfigureEdam p) with
  | .error e => .error e
  | .ok _ =>
    let workRoot := joinPath rundir "sim_work"
    match d.createBackend with
    | .error e => .error e
    | .ok _ =>
      match d.configure with
      | .error e => .error e
      | .ok success =>
        let markers := if success then
            [⟨SeverityE.Info,
              "Configured " ++ p.tool ++ " simulation for " ++ p.toplevel⟩]
          else
            [⟨SeverityE.Error, "Failed to configure " ++ p.tool ++ " simulation"⟩]
        .ok { changed := true
              output := [⟨workRoot, p.tool, success⟩]
              memento := none
              markers := markers
              status := if success then 0 else 1 }

/-- The `SimConfigure` task wrapper with its catch-all `except` branch. -/
def SimConfigure (rundir : String) (p : SimConfigureParams)
    (d : SimConfigureDeps) : TaskDataResult SimConfigureOutput Unit :=
  match simConfigureBody rundir p d with
  | .ok r => r
  | .error e =>
    { changed := false, output := [], memento := none,
      markers := [⟨.Error, "Configuration failed: " ++ e⟩], status := 1 }

/-- `SimBuildParams`. -/
structure SimBuildParams where
  work_root : String
  tool : String

/-- `SimBuildOutput` (`executable` is always `None` in the source, marked
TODO there). -/
structure SimBuildOutput where
  work_root : String
  build_success : Bool
  executable : Option String

/-- State of an on-disk descriptor file as `SimBuild` sees it: absent,
present but malformed (`json.load` raises), or present and parsed. -/
inductive FileState where
  | absent
  | malformed (err : String)
  | parsed (e : Edam)

/-- The descriptor handed to the backend: the parsed document or the `{}`
fallback. -/
inductive EdamDoc where
  | empty
  | doc (e : Edam)

/-- Outcomes of the Edalize calls in `SimBuild`'s `try` block: the two
candidate descriptor files (`work_root/{tool}.edam`, then
`work_root/edam.json`) and `backend.build()` as a function of the
descriptor the backend was constructed with. -/
structure SimBuildDeps where
  toolEdamFile : FileState
  edamJsonFile : FileState
  backendBuild : EdamDoc → Except String (Bool × String)

/-- The descriptor-loading step of `SimBuild`: prefer `{tool}.edam`, fall
back to `edam.json`; a present file is parsed (raising on malformed JSON),
a missing pair of files silently yields the empty descriptor `{}`. -/
def readEdamStep (toolFile jsonFile : FileState) : Except String EdamDoc :=
  match toolFile with
  | .malformed e => .error e
  | .parsed e => .ok (.doc e)
  | .absent =>
    match jsonFile with
    | .malformed e => .error e
    | .parsed e => .ok (.doc e)
    | .absent => .ok .empty

/-- The `try` block of `SimBuild`. -/
def simBuildBody (p : SimBuildParams) (d : SimBuildDeps) :
    Except String (TaskDataResult SimBuildOutput Unit) :=
  match readEdamStep d.toolEdamFile d.edamJsonFile with
  | .error e => .error e
  | .ok edam =>
    match d.backendBuild edam with
    | .error e => .error e
    | .ok (bs, msg) =>
      let markers := if bs then
          [⟨SeverityE.Info, "Build completed successfully"⟩]
        else [⟨SeverityE.Error, "Build failed: " ++ msg⟩]
      .ok { changed := true
            output := [⟨p.work_root, bs, none⟩]
            memento := none
            markers := markers
            status := if bs then 0 else 1 }

/-- The `SimBuild` task wrapper with its catch-all `except` branch. -/
def SimBuild (p : SimBuildParams) (d : SimBuildDeps) :
    TaskDataResult SimBuildOutput Unit :=
  match simBuildBody p d with
  | .ok r => r
  | .error e =>
    { changed := false, output := [], memento := none,
      markers := [⟨.Error, "Build failed: " ++ e⟩], status := 1 }

/-- `SimRunParams`. -/
structure SimRunParams where
  work_root : String
  tool : String
  runtime_plusargs : List (String × PyValue)

/-- `SimRunOutput`. -/
structure SimRunOutput where
  work_root : String
  run_success : Bool
  log_file : Option String

/-- Outcomes of the Edalize calls in `SimRun`'s `try` block:
`backend.run()` and `backend.get_log_files()`. -/
structure SimRunDeps where
  run : Except String (Bool × String)
  logFiles : List String

/-- The `try` block of `SimRun` (`log_file` is the head of the log list if
any, as in `str(log_files[0]) if log_files else None`). -/
def simRunBody (p : SimRunParams) (d : SimRunDeps) :
    Except String (TaskDataResult SimRunOutput Unit) :=
  match d.run with
  | .error e => .error e
  | .ok (rs, msg) =>
    let markers := if rs then
        [⟨SeverityE.Info, "Simulation completed successfully"⟩]
      else [⟨SeverityE.Error, "Simulation failed: " ++ msg⟩]
    .ok { changed := true
          output := [⟨p.work_root, rs, d.logFiles.head?⟩]
          memento := none
          markers := markers
          status := if rs then 0 else 1 }

/-- The `SimRun` task wrapper with its catch-all `except` branch. -/
def SimRun (p : SimRunParams) (d : SimRunDeps) :
    TaskDataResult SimRunOutput Unit :=
  match simRunBody p d with
  | .ok r => r
  | .error e =>
    { changed := false, output := [], memento := none,
      markers := [⟨.Error, "Simulation failed: " ++ e⟩], status := 1 }

/-- The shape every wrapper's `except` branch produces: status 1, empty
output, and at least one error-severity marker containing the exception
text. -/
def IsCaughtFailure {α μ : Type} (r : TaskDataResult α μ) (e : String) : Prop :=
  r.status = 1 ∧ r.output = [] ∧
  ∃ m, m ∈ r.markers ∧ m.severity = SeverityE.Error ∧
    ∃ pre post, m.msg = pre ++ e ++ post

/-! # Theorems -/

/-! ## Association-list helper lemmas -/

theorem alistGet_alistSet_self {α : Type} (l : List (String × α)) (k : String) (v : α) :
    alistGet (alistSet l k v) k = some v := by
  induction l with
  | nil => simp [alistGet, alistSet]
  | cons hd tl ih =>
    obtain ⟨k', v'⟩ := hd
    by_cases h : k' = k
    · subst h
      simp [alistGet, alistSet]
    · simp [alistGet, alistSet, h, ih]

theorem alistGet_alistSet_ne {α : Type} (l : List (String × α)) (k k' : String) (v : α)
    (h : k' ≠ k) : alistGet (alistSet l k v) k' = alistGet l k' := by
  have hne : ¬ k = k' := fun hh => h hh.symm
  induction l with
  | nil => simp [alistGet, alistSet, hne]
  | cons hd tl ih =>
    obtain ⟨k₀, v₀⟩ := hd
    by_cases h0 : k₀ = k
    · subst h0
      simp [alistGet, alistSet, hne]
    · by_cases h1 : k₀ = k'
      · subst h1
        simp [alistGet, alistSet, h0]
      · simp [alistGet, alistSet, h0, h1, ih]

theorem filterMap_eq_filter_map {α β : Type} (g : α → Option β) (p : α → Bool)
    (q : α → β) (h1 : ∀ a, p a = true → g a = some (q a))
    (h2 : ∀ a, p a = false → g a = none) (l : List α) :
    l.filterMap g = (l.filter p).map q := by
  induction l with
  | nil => rfl
  | cons a tl ih =>
    cases hp : p a with
    | true => simp [List.filterMap_cons, List.filter_cons, hp, h1 a hp, ih]
    | false => simp [List.filterMap_cons, List.filter_cons, hp, h2 a hp, ih]

/-! ## Claim C1 -/

/-- C1: for every filename and pair of roots, `_resolve_file_path` returns
the primary-root (`core_root`) path when the file exists there, else the
secondary-root (`files_root`) path when the file exists there, else the
non-existent primary-root path; being a total function it raises no error
for missing files. -/
theorem resolve_file_path_spec (fs : String → Bool) (cr fr fn : String) :
    (fs (joinPath cr fn) = true →
      resolve_file_path fs cr fr fn = joinPath cr fn)
  ∧ (fs (joinPath cr fn) = false → fs (joinPath fr fn) = true →
      resolve_file_path fs cr fr fn = joinPath fr fn)
  ∧ (fs (joinPath cr fn) = false → fs (joinPath fr fn) = false →
      resolve_file_path fs cr fr fn = joinPath cr fn) := by
  unfold resolve_file_path
  by_cases habs : isAbsPath fn
  · simp [joinPath, habs]
  · simp only [joinPath, habs, Bool.false_eq_true, if_false]
    refine ⟨fun h1 => by simp [h1], fun h1 h2 => ?_, fun h1 h2 => ?_⟩
    · simp only [h1, Bool.false_eq_true, if_false]
      by_cases hne : fr = cr
      · subst hne
        simp
      · simp [hne, h2]
    · simp only [h1, Bool.false_eq_true, if_false]
      by_cases hne : fr = cr
      · subst hne
        simp
      · simp [hne, h2]

theorem resolve_file_path_spec_witness :
    resolve_file_path (fun p => p == "/r/a.v") "/r" "/s" "a.v" = joinPath "/r" "a.v"
  ∧ resolve_file_path (fun p => p == "/s/b.v") "/r" "/s" "b.v" = joinPath "/s" "b.v"
  ∧ resolve_file_path (fun _ => false) "/r" "/s" "c.v" = joinPath "/r" "c.v" :=
  ⟨(resolve_file_path_spec (fun p => p == "/r/a.v") "/r" "/s" "a.v").1 (by decide),
   (resolve_file_path_spec (fun p => p == "/s/b.v") "/r" "/s" "b.v").2.1
     (by decide) (by decide),
   (resolve_file_path_spec (fun _ => false) "/r" "/s" "c.v").2.2
     (by decide) (by decide)⟩

/-! ## Claim C2 -/

/-- C2 counterexample: `include_path` is not carried over verbatim — its
value is resolved against the primary root, so for the relative input
`inc` under root `/c` the output holds `/c/inc`, not `inc`. -/
theorem convert_files_include_path_cex :
    (convert_files (fun _ => false) "/c" "/c"
        [{ name := some "a.v", file_type := some "verilogSource",
           is_include_file := none, include_path := some "inc",
           logical_name := none, copyto := none, tags := none }]).map
        (fun f => f.include_path)
      = [some "/c/inc"]
  ∧ (some "/c/inc" : Option String) ≠ some "inc" := by
  constructor
  · decide
  · decide

/-- C2 (amended): `convert_files` keeps exactly the records with a
non-empty name, in input order; each kept record is converted with its type
tag mapped through the table (unmapped tags pass through), its optional
attributes carried under renamed keys exactly when present — except that
`include_path`'s value is resolved against the roots rather than copied
verbatim. -/
theorem convert_files_spec (fs : String → Bool) (cr fr : String)
    (files : List FuseSocFile) :
    convert_files fs cr fr files
      = (files.filter hasName).map (specConvertedRecord fs cr fr)
  ∧ (∀ t u, alistGet FILE_TYPE_MAP t = some u → mapCoreFileType t = u)
  ∧ (∀ t, alistGet FILE_TYPE_MAP t = none → mapCoreFileType t = t) := by
  refine ⟨?_, ?_, ?_⟩
  · apply filterMap_eq_filter_map
    · intro f hf
      simp only [hasName] at hf
      unfold convert_file specConvertedRecord
      cases hname : f.name with
      | none =>
        rw [hname] at hf
        simp at hf
      | some fn =>
        rw [hname] at hf
        by_cases he : fn = ""
        · simp [he] at hf
        · simp [he]
    · intro f hf
      simp only [hasName] at hf
      unfold convert_file
      cases hname : f.name with
      | none => rfl
      | some fn =>
        rw [hname] at hf
        by_cases he : fn = ""
        · simp [he]
        · simp [he] at hf
  · intro t u h
    unfold mapCoreFileType
    rw [h]
    rfl
  · intro t h
    unfold mapCoreFileType
    rw [h]
    rfl

theorem convert_files_spec_witness :
    convert_files (fun _ => false) "/c" "/d"
        [{ name := some "b.v", file_type := some "xdc",
           is_include_file := some true, include_path := none,
           logical_name := some "lib", copyto := none, tags := none },
         { name := none, file_type := some "user", is_include_file := none,
           include_path := none, logical_name := none, copyto := none,
           tags := none }]
      = (([{ name := some "b.v", file_type := some "xdc",
             is_include_file := some true, include_path := none,
             logical_name := some "lib", copyto := none, tags := none },
           { name := none, file_type := some "user", is_include_file := none,
             include_path := none, logical_name := none, copyto := none,
             tags := none }] : List FuseSocFile).filter hasName).map
          (specConvertedRecord (fun _ => false) "/c" "/d")
  ∧ mapCoreFileType "verilogSource" = "verilog"
  ∧ mapCoreFileType "mySpecialType" = "mySpecialType" :=
  ⟨(convert_files_spec (fun _ => false) "/c" "/d" _).1,
   (convert_files_spec (fun _ => false) "/c" "/d" []).2.1 "verilogSource"
     "verilog" (by decide),
   (convert_files_spec (fun _ => false) "/c" "/d" []).2.2 "mySpecialType"
     (by decide)⟩

/-! ## Claim C3 -/

/-- C3: datatype inference for raw parameter / plusarg values: a boolean
infers `bool` even though Python booleans are also integers (the `bool`
branch is checked first), any other integer infers `int`, a float infers
`real`, anything else infers `str`; `add_parameters` stores raw values with
the inferred datatype under kind `vlogparam`, `add_plusargs` under kind
`plusarg`. -/
theorem infer_datatype_spec :
    (∀ b, isinstance_int (PyValue.pyBool b) = true
        ∧ EdamBuilder.infer_datatype (PyValue.pyBool b) = "bool")
  ∧ (∀ n, EdamBuilder.infer_datatype (PyValue.pyInt n) = "int")
  ∧ (∀ f, EdamBuilder.infer_datatype (PyValue.pyFloat f) = "real")
  ∧ (∀ s, EdamBuilder.infer_datatype (PyValue.pyStr s) = "str")
  ∧ EdamBuilder.infer_datatype PyValue.pyNone = "str"
  ∧ (∀ e nm v,
      alistGet (EdamBuilder.add_parameters e [(nm, ParamValue.raw v)]).parameters nm
        = some ⟨EdamBuilder.infer_datatype v, v, "vlogparam"⟩)
  ∧ (∀ e nm v,
      alistGet (EdamBuilder.add_plusargs e [(nm, v)]).parameters nm
        = some ⟨EdamBuilder.infer_datatype v, v, "plusarg"⟩) := by
  refine ⟨fun b => ⟨rfl, rfl⟩, fun n => rfl, fun f => rfl, fun s => rfl, rfl,
    ?_, ?_⟩
  · intro e nm v
    simp [EdamBuilder.add_parameters, alistGet_alistSet_self]
  · intro e nm v
    simp [EdamBuilder.add_plusargs, alistGet_alistSet_self]

/-! ## Claim C4 -/

/-- C4 counterexample: the two file-type maps are not symmetric and the
forward map is not injective: `xdc` maps forward to `constraint`, which
maps back to `user`, and `xdc` and `SDC` collide on `constraint`. -/
theorem file_type_roundtrip_cex :
    EdamBuilder.map_file_type (mapCoreFileType "xdc") = "user"
  ∧ mapCoreFileType "xdc" = mapCoreFileType "SDC"
  ∧ ("xdc" : String) ≠ "SDC" := by
  refine ⟨by decide, by decide, by decide⟩

/-- C4 (amended): the forward-then-reverse roundtrip holds exactly for the
five tags `verilogSource`, `systemVerilogSource`, `vhdlSource`,
`tclSource`, `user`; it fails for `vhdlSource-2008` (which collapses onto
`vhdlSource`) and for all five constraint tags (which collapse onto
`constraint` and come back as `user`), so the map is not one-to-one. -/
theorem file_type_roundtrip_amended :
    (∀ t, t ∈ (["verilogSource", "systemVerilogSource", "vhdlSource",
        "tclSource", "user"] : List String) →
      EdamBuilder.map_file_type (mapCoreFileType t) = t)
  ∧ (∀ t, t ∈ (["vhdlSource-2008", "xdc", "SDC", "UCF", "PCF", "LPF"] :
        List String) →
      EdamBuilder.map_file_type (mapCoreFileType t) ≠ t) := by
  constructor
  · intro t ht
    fin_cases ht <;> decide
  · intro t ht
    fin_cases ht <;> decide

theorem file_type_roundtrip_amended_witness :
    EdamBuilder.map_file_type (mapCoreFileType "verilogSource") = "verilogSource"
  ∧ EdamBuilder.map_file_type (mapCoreFileType "SDC") ≠ "SDC" :=
  ⟨file_type_roundtrip_amended.1 "verilogSource" (by decide),
   file_type_roundtrip_amended.2 "SDC" (by decide)⟩

/-! ## Claim C5 -/

/-- C5: `build()` raises (`ValueError`) exactly when the accumulated
descriptor's design name is empty; for any non-empty name it returns the
accumulated descriptor unchanged without raising. -/
theorem build_requires_name (e : Edam) :
    (e.name = "" → EdamBuilder.build e = .error "EDAM 'name' is required")
  ∧ (e.name ≠ "" → EdamBuilder.build e = .ok e) := by
  constructor
  · intro h
    simp [EdamBuilder.build, h]
  · intro h
    simp [EdamBuilder.build, h]

theorem build_requires_name_witness :
    EdamBuilder.build (EdamBuilder.init "") = .error "EDAM 'name' is required"
  ∧ EdamBuilder.build (EdamBuilder.init "top") = .ok (EdamBuilder.init "top") :=
  ⟨(build_requires_name (EdamBuilder.init "")).1 rfl,
   (build_requires_name (EdamBuilder.init "top")).2 (by decide)⟩

/-! ## Claim C6 -/

/-- C6: after `set_toplevel` the `toplevel` field is always a single
string: a string argument is stored as-is, a non-empty list contributes its
first element, an empty list yields the empty string. -/
theorem set_toplevel_spec :
    (∀ e s, (EdamBuilder.set_toplevel e (Toplevel.str s)).toplevel
      = Toplevel.str s)
  ∧ (∀ e x l, (EdamBuilder.set_toplevel e (Toplevel.list (x :: l))).toplevel
      = Toplevel.str x)
  ∧ (∀ e : Edam, (EdamBuilder.set_toplevel e (Toplevel.list [])).toplevel
      = Toplevel.str "") :=
  ⟨fun _ _ => rfl, fun _ _ _ => rfl, fun _ => rfl⟩

/-! ## Claim C7 -/

/-- C7: `add_include_dirs` appends, for each directory, the pair `-I`, dir
to icarus's `iverilog_options` and the single token `-I` ++ dir to
verilator's `verilator_options`, preserving existing options; other option
keys of those two tools are untouched, and every tool other than `icarus`
and `verilator` keeps its options unchanged. -/
theorem add_include_dirs_spec (e : Edam) (dirs : List String) :
    alistGet ((alistGet (EdamBuilder.add_include_dirs e dirs).tool_options
        "icarus").getD []) "iverilog_options"
      = some (((alistGet ((alistGet e.tool_options "icarus").getD [])
          "iverilog_options").getD []) ++ dirs.flatMap (fun d => ["-I", d]))
  ∧ alistGet ((alistGet (EdamBuilder.add_include_dirs e dirs).tool_options
        "verilator").getD []) "verilator_options"
      = some (((alistGet ((alistGet e.tool_options "verilator").getD [])
          "verilator_options").getD []) ++ dirs.map (fun d => "-I" ++ d))
  ∧ (∀ k, k ≠ "iverilog_options" →
      alistGet ((alistGet (EdamBuilder.add_include_dirs e dirs).tool_options
          "icarus").getD []) k
        = alistGet ((alistGet e.tool_options "icarus").getD []) k)
  ∧ (∀ k, k ≠ "verilator_options" →
      alistGet ((alistGet (EdamBuilder.add_include_dirs e dirs).tool_options
          "verilator").getD []) k
        = alistGet ((alistGet e.tool_options "verilator").getD []) k)
  ∧ (∀ t, t ≠ "icarus" → t ≠ "verilator" →
      alistGet (EdamBuilder.add_include_dirs e dirs).tool_options t
        = alistGet e.tool_options t) := by
  have hiv : ("icarus" : String) ≠ "verilator" := by decide
  refine ⟨?_, ?_, ?_, ?_, ?_⟩
  · simp only [EdamBuilder.add_include_dirs]
    rw [alistGet_alistSet_ne _ _ _ _ hiv, alistGet_alistSet_self]
    simp [alistGet_alistSet_self]
  · simp only [EdamBuilder.add_include_dirs]
    rw [alistGet_alistSet_self]
    rw [alistGet_alistSet_ne _ _ _ _ (fun hh => hiv hh.symm)]
    simp [alistGet_alistSet_self]
  · intro k hk
    simp only [EdamBuilder.add_include_dirs]
    rw [alistGet_alistSet_ne _ _ _ _ hiv, alistGet_alistSet_self]
    simp only [Option.getD_some]
    rw [alistGet_alistSet_ne _ _ _ _ hk]
  · intro k hk
    simp only [EdamBuilder.add_include_dirs]
    rw [alistGet_alistSet_self]
    rw [alistGet_alistSet_ne _ _ _ _ (fun hh => hiv hh.symm)]
    simp only [Option.getD_some]
    rw [alistGet_alistSet_ne _ _ _ _ hk]
  · intro t ht1 ht2
    simp only [EdamBuilder.add_include_dirs]
    rw [alistGet_alistSet_ne _ _ _ _ ht2, alistGet_alistSet_ne _ _ _ _ ht1]

theorem add_include_dirs_spec_witness :
    alistGet ((alistGet (EdamBuilder.add_include_dirs (EdamBuilder.init "x")
        ["i1"]).tool_options "icarus").getD []) "timescale"
      = alistGet ((alistGet (EdamBuilder.init "x").tool_options
        "icarus").getD []) "timescale"
  ∧ alistGet (EdamBuilder.add_include_dirs (EdamBuilder.init "x")
        ["i1"]).tool_options "ghdl"
      = alistGet (EdamBuilder.init "x").tool_options "ghdl" :=
  ⟨(add_include_dirs_spec (EdamBuilder.init "x") ["i1"]).2.2.1 "timescale"
     (by decide),
   (add_include_dirs_spec (EdamBuilder.init "x") ["i1"]).2.2.2.2 "ghdl"
     (by decide) (by decide)⟩

/-! ## Claim C10 -/

/-- C10: for every absolute filename the resolver returns the filename
unchanged, independent of the filesystem contents and of both roots, so the
two-root preference logic only applies to relative filenames. -/
theorem resolve_file_path_absolute (fs fs2 : String → Bool)
    (cr fr cr2 fr2 fn : String) (h : isAbsPath fn = true) :
    resolve_file_path fs cr fr fn = fn
  ∧ resolve_file_path fs2 cr2 fr2 fn = resolve_file_path fs cr fr fn := by
  unfold resolve_file_path
  simp [h]

theorem resolve_file_path_absolute_witness :
    resolve_file_path (fun _ => false) "/r" "/s" "/abs/x.v" = "/abs/x.v"
  ∧ resolve_file_path (fun _ => true) "/q" "/t" "/abs/x.v"
      = resolve_file_path (fun _ => false) "/r" "/s" "/abs/x.v" :=
  resolve_file_path_absolute (fun _ => false) (fun _ => true)
    "/r" "/s" "/q" "/t" "/abs/x.v" (by decide)

/-! ## Claim C8 -/

/-- C8: for each of the four task wrappers (`CoreResolve`, `SimConfigure`,
`SimBuild`, `SimRun`), whenever the delegated work in its `try` block
raises an exception with text `e`, the wrapper catches it (never
propagating it) and returns a result with status code 1, an empty output
list, and at least one error-severity marker whose message contains `e`. -/
theorem task_wrappers_catch_exceptions :
    (∀ p d ms e, coreResolveBody p d = .error (ms, e) →
      IsCaughtFailure (CoreResolve p d) e)
  ∧ (∀ rd p d e, simConfigureBody rd p d = .error e →
      IsCaughtFailure (SimConfigure rd p d) e)
  ∧ (∀ p d e, simBuildBody p d = .error e →
      IsCaughtFailure (SimBuild p d) e)
  ∧ (∀ p d e, simRunBody p d = .error e →
      IsCaughtFailure (SimRun p d) e) := by
  refine ⟨?_, ?_, ?_, ?_⟩
  · intro p d ms e h
    unfold IsCaughtFailure CoreResolve
    rw [h]
    exact ⟨rfl, rfl, ⟨.Error, "Core resolution failed: " ++ e⟩, by simp, rfl,
      "Core resolution failed: ", "", by simp⟩
  · intro rd p d e h
    unfold IsCaughtFailure SimConfigure
    rw [h]
    exact ⟨rfl, rfl, ⟨.Error, "Configuration failed: " ++ e⟩, by simp, rfl,
      "Configuration failed: ", "", by simp⟩
  · intro p d e h
    unfold IsCaughtFailure SimBuild
    rw [h]
    exact ⟨rfl, rfl, ⟨.Error, "Build failed: " ++ e⟩, by simp, rfl,
      "Build failed: ", "", by simp⟩
  · intro p d e h
    unfold IsCaughtFailure SimRun
    rw [h]
    exact ⟨rfl, rfl, ⟨.Error, "Simulation failed: " ++ e⟩, by simp, rfl,
      "Simulation failed: ", "", by simp⟩

theorem task_wrappers_catch_exceptions_witness :
    IsCaughtFailure (CoreResolve
        ⟨"v:l:n:1.0", none, none, [], none⟩
        ⟨.ok (), .error "core not found", .ok ⟨"", "", "", [], []⟩, .ok [],
         fun _ => false, 0⟩)
      "core not found"
  ∧ IsCaughtFailure (SimConfigure "rd"
        ⟨"top", [], [], "tb", "icarus", [], [], []⟩
        ⟨.ok (), .error "tool exploded"⟩)
      "tool exploded"
  ∧ IsCaughtFailure (SimBuild ⟨"wr", "icarus"⟩
        ⟨.malformed "Expecting value", .absent, fun _ => .ok (true, "")⟩)
      "Expecting value"
  ∧ IsCaughtFailure (SimRun ⟨"wr", "icarus", []⟩ ⟨.error "sim crashed", []⟩)
      "sim crashed" :=
  ⟨task_wrappers_catch_exceptions.1 _ _ [] "core not found" rfl,
   task_wrappers_catch_exceptions.2.1 "rd" _ _ "tool exploded" rfl,
   task_wrappers_catch_exceptions.2.2.1 _ _ "Expecting value" rfl,
   task_wrappers_catch_exceptions.2.2.2 _ _ "sim crashed" rfl⟩

/-! ## Claim C9 -/

/-- C9 counterexample: a malformed descriptor file is NOT silently
replaced by an empty descriptor — the parse raises, the wrapper catches
it, and the task fails with status 1 and empty output even though the
backend build would have succeeded. -/
theorem simbuild_malformed_cex :
    (SimBuild ⟨"wr", "icarus"⟩
        ⟨FileState.malformed "Expecting value: line 1 column 1 (char 0)",
         FileState.absent,
         fun _ => Except.ok (true, "Build completed")⟩).status = 1
  ∧ (SimBuild ⟨"wr", "icarus"⟩
        ⟨FileState.malformed "Expecting value: line 1 column 1 (char 0)",
         FileState.absent,
         fun _ => Except.ok (true, "Build completed")⟩).output = [] :=
  ⟨rfl, rfl⟩

/-- C9 (amended): when the descriptor file is missing (neither
`{tool}.edam` nor `edam.json` exists) `SimBuild` silently substitutes the
empty descriptor and proceeds — the build delegate runs on the empty
descriptor and the absence of the file does not by itself produce a
failure status; but when the file exists and is malformed the parse error
is caught and the task fails with status 1 regardless of the build
delegate. -/
theorem simbuild_descriptor_fallback (p : SimBuildParams)
    (bb : EdamDoc → Except String (Bool × String)) (bs : Bool) (msg : String)
    (h : bb EdamDoc.empty = .ok (bs, msg)) :
    readEdamStep FileState.absent FileState.absent = .ok EdamDoc.empty
  ∧ (SimBuild p ⟨FileState.absent, FileState.absent, bb⟩).status
      = (if bs then 0 else 1)
  ∧ (SimBuild p ⟨FileState.absent, FileState.absent, bb⟩).output
      = [⟨p.work_root, bs, none⟩]
  ∧ (∀ err, (SimBuild p ⟨FileState.malformed err, FileState.absent, bb⟩).status
      = 1) := by
  refine ⟨rfl, ?_, ?_, fun err => rfl⟩
  · simp only [SimBuild, simBuildBody, readEdamStep, h]
  · simp only [SimBuild, simBuildBody, readEdamStep, h]

theorem simbuild_descriptor_fallback_witness :
    (SimBuild ⟨"w", "icarus"⟩
        ⟨FileState.absent, FileState.absent,
         fun _ => Except.ok (true, "Build completed")⟩).status
      = (if true then 0 else 1)
  ∧ (SimBuild ⟨"w", "icarus"⟩
        ⟨FileState.malformed "bad json", FileState.absent,
         fun _ => Except.ok (true, "Build completed")⟩).status = 1 :=
  ⟨(simbuild_descriptor_fallback ⟨"w", "icarus"⟩
      (fun _ => Except.ok (true, "Build completed")) true "Build completed"
      rfl).2.1,
   (simbuild_descriptor_fallback ⟨"w", "icarus"⟩
      (fun _ => Except.ok (true, "Build completed")) true "Build completed"
      rfl).2.2.2 "bad json"⟩
